import Mathlib

set_option linter.unusedVariables false

/-!
Verification of the GitHub webhook ingestion and measure-extraction pipeline
(src/lambdas/webhook-handler/index.ts and src/lambdas/webhook-handler/measures/index.ts).

The TypeScript source is shallowly embedded: JavaScript values are modelled by
the inductive type JsVal, fallible property access (which throws TypeError on
null/undefined) by Except String, and the Lambda handler by a pure function over
an abstract environment (signature verifier, JSON parser, AWS clients).
-/

/-- A JavaScript runtime value as seen by the webhook code: JSON trees plus the
distinguished value undefined, which property access on absent keys yields. -/
inductive JsVal where
  | undefined : JsVal
  | null : JsVal
  | bool (b : Bool) : JsVal
  | num (n : Int) : JsVal
  | str (s : String) : JsVal
  | arr (elems : List JsVal) : JsVal
  | obj (fields : List (String × JsVal)) : JsVal

/-- JavaScript property access v[k] (dot access). Throws TypeError on undefined
and null; yields undefined for keys absent from an object; arrays and strings
expose length; other primitives have no own properties of interest. -/
def jsGetField (v : JsVal) (k : String) : Except String JsVal :=
  match v with
  | .undefined => .error ("TypeError: cannot read " ++ k)
  | .null => .error ("TypeError: cannot read " ++ k)
  | .obj fields => .ok ((List.lookup k fields).getD .undefined)
  | .arr elems => if k = "length" then .ok (.num elems.length) else .ok .undefined
  | .str s => if k = "length" then .ok (.num s.length) else .ok .undefined
  | .bool _ => .ok .undefined
  | .num _ => .ok .undefined

/-- JavaScript indexed access v[i] for a nonnegative integer index. -/
def jsIndex (v : JsVal) (i : Nat) : Except String JsVal :=
  match v with
  | .undefined => .error "TypeError: cannot index"
  | .null => .error "TypeError: cannot index"
  | .arr elems => .ok (elems.getD i .undefined)
  | .obj fields => .ok ((List.lookup (toString i) fields).getD .undefined)
  | .str s => .ok (match s.data.get? i with
      | some c => .str (String.mk [c])
      | none => .undefined)
  | .bool _ => .ok .undefined
  | .num _ => .ok .undefined

/-- JavaScript truthiness. undefined, null, false, 0 and the empty string are
falsy; objects and arrays are always truthy. (NaN does not arise in the model.) -/
def jsTruthy : JsVal → Bool
  | .undefined => false
  | .null => false
  | .bool b => b
  | .num n => n != 0
  | .str s => s != ""
  | .arr _ => true
  | .obj _ => true

/-- The test x !== undefined && x !== null used by the source for the merged and
draft fields (strict inequality against exactly these two values). -/
def jsIsUndefOrNull : JsVal → Bool
  | .undefined => true
  | .null => true
  | _ => false

mutual

/-- JavaScript String(x) coercion for the values the extractor stringifies. -/
def jsToString : JsVal → String
  | .undefined => "undefined"
  | .null => "null"
  | .bool b => cond b "true" "false"
  | .num n => toString n
  | .str s => s
  | .arr elems => jsToStringList elems
  | .obj _ => "[object Object]"

/-- Array toString: elements joined by commas, null/undefined rendered empty. -/
def jsToStringList : List JsVal → String
  | [] => ""
  | [v] => jsToStringElem v
  | v :: rest => jsToStringElem v ++ "," ++ jsToStringList rest

/-- One array element inside Array.prototype.toString. -/
def jsToStringElem : JsVal → String
  | .undefined => ""
  | .null => ""
  | .bool b => cond b "true" "false"
  | .num n => toString n
  | .str s => s
  | .arr elems => jsToStringList elems
  | .obj _ => "[object Object]"

end

/-- One element of the measureValues array of a MULTI measure. The source field
named Type (a reserved word in Lean) is rendered typ; Value holds the raw
JavaScript value the source stores there. -/
structure MultiValue where
  Name : String
  typ : String
  Value : JsVal

/-- Timestream measure definition: either a single-valued measure or a MULTI
measure with a list of named values (measureValueType MULTI). -/
inductive measureType where
  | single (measureName : String) (measureValueType : String) (measureValue : JsVal)
  | multi (measureName : String) (measureValues : List MultiValue)

/-- True exactly on the MULTI shape. -/
def measureType.isMulti : measureType → Bool
  | .multi _ _ => true
  | .single _ _ _ => false

/-- The Name strings of a MULTI measure, empty for a single measure. -/
def mvNames : measureType → List String
  | .multi _ vs => vs.map MultiValue.Name
  | .single _ _ _ => []

/-- formatTimestamp from measures/index.ts: String(new Date(isoTimestamp).getTime()).
jsDate abstracts the Date library (argument to milliseconds); now is the ambient
wall clock (Date.now) available to the runtime, which this function provably
never consults, since the source constructs the Date from its argument only. -/
def formatTimestamp (jsDate : JsVal → Int) (now : Int) (isoTimestamp : JsVal) : String :=
  toString (jsDate isoTimestamp)

/-- Iteration count of the source loops for (let i = 0; i < Math.min(len, 5); i++).
A JavaScript array length is always a nonnegative number; for undefined/null
lengths Math.min yields NaN/0 and the body never runs, modelled by 0. -/
def jsLoopCount : JsVal → Nat
  | .num n => min n.toNat 5
  | _ => 0

/-- The measureValues built by the push case of getMeasure
(measures/index.ts lines 414-468). -/
def pushMeasureValues (payload : JsVal) : Except String (List MultiValue) := do
  let afterV ← jsGetField payload "after"
  let beforeV ← jsGetField payload "before"
  let commits ← jsGetField payload "commits"
  let commitsLen ← jsGetField commits "length"
  let created ← jsGetField payload "created"
  let deleted ← jsGetField payload "deleted"
  let forced ← jsGetField payload "forced"
  let pusher ← jsGetField payload "pusher"
  let pusherName ← jsGetField pusher "name"
  let refV ← jsGetField payload "ref"
  let baseRef ← jsGetField payload "base_ref"
  let baseChunk : List MultiValue :=
    if jsTruthy baseRef then [⟨"push_base_ref", "VARCHAR", baseRef⟩] else []
  .ok ([⟨"push_after", "VARCHAR", afterV⟩,
        ⟨"push_before", "VARCHAR", beforeV⟩,
        ⟨"push_commits_length", "BIGINT", .str (jsToString commitsLen)⟩,
        ⟨"push_created", "BOOLEAN", .str (jsToString created)⟩,
        ⟨"push_deleted", "BOOLEAN", .str (jsToString deleted)⟩,
        ⟨"push_forced", "BOOLEAN", .str (jsToString forced)⟩,
        ⟨"push_pusher_name", "VARCHAR", pusherName⟩,
        ⟨"push_ref", "VARCHAR", refV⟩] ++ baseChunk)

/-- The eleven unconditional entries pushed first by
add_pull_request_object_infomation (measures/index.ts lines 782-838), in source
order. pr is payload.pull_request; pfx is the caller-supplied name prefix. -/
def prFixedEntries (jsDate : JsVal → Int) (now : Int) (pr : JsVal) (pfx : String) :
    Except String (List MultiValue) := do
  let authorAssociation ← jsGetField pr "author_association"
  let base ← jsGetField pr "base"
  let baseLabel ← jsGetField base "label"
  let baseRef ← jsGetField base "ref"
  let baseSha ← jsGetField base "sha"
  let createdAt ← jsGetField pr "created_at"
  let draft ← jsGetField pr "draft"
  let idv ← jsGetField pr "id"
  let locked ← jsGetField pr "locked"
  let number ← jsGetField pr "number"
  let state ← jsGetField pr "state"
  let updatedAt ← jsGetField pr "updated_at"
  .ok [⟨pfx ++ "pr_author_association", "VARCHAR", authorAssociation⟩,
       ⟨pfx ++ "pr_base_label", "VARCHAR", baseLabel⟩,
       ⟨pfx ++ "pr_base_ref", "VARCHAR", baseRef⟩,
       ⟨pfx ++ "pr_base_sha", "VARCHAR", baseSha⟩,
       ⟨pfx ++ "pr_created_at", "TIMESTAMP", .str (formatTimestamp jsDate now createdAt)⟩,
       ⟨pfx ++ "pr_draft", "BOOLEAN", .str (jsToString draft)⟩,
       ⟨pfx ++ "pr_id", "BIGINT", .str (jsToString idv)⟩,
       ⟨pfx ++ "pr_locked", "BOOLEAN", .str (jsToString locked)⟩,
       ⟨pfx ++ "pr_number", "BIGINT", .str (jsToString number)⟩,
       ⟨pfx ++ "pr_state", "VARCHAR", state⟩,
       ⟨pfx ++ "pr_update_at", "TIMESTAMP", .str (formatTimestamp jsDate now updatedAt)⟩]

/-- if (payload.pull_request.commits) branch (lines 840-846). -/
def prCommitsChunk (pr : JsVal) (pfx : String) : Except String (List MultiValue) := do
  let commits ← jsGetField pr "commits"
  if jsTruthy commits then
    .ok [⟨pfx ++ "pr_commits", "BIGINT", .str (jsToString commits)⟩]
  else
    .ok []

/-- if (payload.pull_request.review_comments) branch (lines 848-854). -/
def prReviewCommentsChunk (pr : JsVal) (pfx : String) : Except String (List MultiValue) := do
  let rc ← jsGetField pr "review_comments"
  if jsTruthy rc then
    .ok [⟨pfx ++ "pr_rv_comments", "BIGINT", .str (jsToString rc)⟩]
  else
    .ok []

/-- if (payload.pull_request.assignee) branch (lines 856-867). The source
labels the login entry BIGINT. -/
def prAssigneeChunk (pr : JsVal) (pfx : String) : Except String (List MultiValue) := do
  let assignee ← jsGetField pr "assignee"
  if jsTruthy assignee then do
    let aid ← jsGetField assignee "id"
    let alogin ← jsGetField assignee "login"
    .ok [⟨pfx ++ "pr_assignee_id", "BIGINT", .str (jsToString aid)⟩,
         ⟨pfx ++ "pr_assignee_login", "BIGINT", .str (jsToString alogin)⟩]
  else
    .ok []

/-- Body of the assignees loop (lines 875-889): indices i with
i < Math.min(num_assignees, 5); falsy elements are skipped by continue. -/
def prAssigneesEntries (assignees : JsVal) (pfx : String) :
    List Nat → Except String (List MultiValue)
  | [] => .ok []
  | i :: rest => do
    let ai ← jsIndex assignees i
    if jsTruthy ai then do
      let aid ← jsGetField ai "id"
      let alogin ← jsGetField ai "login"
      let tail ← prAssigneesEntries assignees pfx rest
      .ok (⟨pfx ++ ("pr_assignees_" ++ toString i ++ "_id"), "BIGINT", .str (jsToString aid)⟩ ::
           ⟨pfx ++ ("pr_assignees_" ++ toString i ++ "_login"), "BIGINT", .str (jsToString alogin)⟩ ::
           tail)
    else
      prAssigneesEntries assignees pfx rest

/-- if (payload.pull_request.assignees) branch (lines 868-890): a length entry
with the true length, then the bounded indexed entries. -/
def prAssigneesChunk (pr : JsVal) (pfx : String) : Except String (List MultiValue) := do
  let assignees ← jsGetField pr "assignees"
  if jsTruthy assignees then do
    let len ← jsGetField assignees "length"
    let entries ← prAssigneesEntries assignees pfx (List.range (jsLoopCount len))
    .ok (⟨pfx ++ "pr_assignees_length", "BIGINT", .str (jsToString len)⟩ :: entries)
  else
    .ok []

/-- if (payload.pull_request.auto_merge) branch (lines 891-897). -/
def prAutoMergeChunk (pr : JsVal) (pfx : String) : Except String (List MultiValue) := do
  let am ← jsGetField pr "auto_merge"
  if jsTruthy am then do
    let mm ← jsGetField am "merge_method"
    .ok [⟨pfx ++ "pr_auto_merge_merge_method", "BOOLEAN", .str (jsToString mm)⟩]
  else
    .ok []

/-- if (payload.pull_request.base.user) branch (lines 898-909). -/
def prBaseUserChunk (pr : JsVal) (pfx : String) : Except String (List MultiValue) := do
  let base ← jsGetField pr "base"
  let user ← jsGetField base "user"
  if jsTruthy user then do
    let uid ← jsGetField user "id"
    let ulogin ← jsGetField user "login"
    .ok [⟨pfx ++ "pr_base_user_id", "BIGINT", .str (jsToString uid)⟩,
         ⟨pfx ++ "pr_base_user_login", "VARCHAR", ulogin⟩]
  else
    .ok []

/-- if (payload.pull_request.closed_at) branch (lines 910-916). -/
def prClosedAtChunk (jsDate : JsVal → Int) (now : Int) (pr : JsVal) (pfx : String) :
    Except String (List MultiValue) := do
  let ca ← jsGetField pr "closed_at"
  if jsTruthy ca then
    .ok [⟨pfx ++ "pr_closed_at", "TIMESTAMP", .str (formatTimestamp jsDate now ca)⟩]
  else
    .ok []

/-- Body of the labels loop (lines 918-924). Unlike the other flattened arrays
no length entry is ever pushed for pull-request labels. -/
def prLabelsEntries (labels : JsVal) (pfx : String) :
    List Nat → Except String (List MultiValue)
  | [] => .ok []
  | i :: rest => do
    let li ← jsIndex labels i
    let nm ← jsGetField li "name"
    let tail ← prLabelsEntries labels pfx rest
    .ok (⟨pfx ++ ("pr_labels_" ++ toString i ++ "_name"), "VARCHAR", nm⟩ :: tail)

/-- The labels loop itself: payload.pull_request.labels.length is read
unconditionally, so a missing labels array throws. -/
def prLabelsChunk (pr : JsVal) (pfx : String) : Except String (List MultiValue) := do
  let labels ← jsGetField pr "labels"
  let len ← jsGetField labels "length"
  prLabelsEntries labels pfx (List.range (jsLoopCount len))

/-- if (merged !== undefined && merged !== null) branch (lines 926-935). -/
def prMergedChunk (pr : JsVal) (pfx : String) : Except String (List MultiValue) := do
  let merged ← jsGetField pr "merged"
  if jsIsUndefOrNull merged then
    .ok []
  else
    .ok [⟨pfx ++ "pr_merged", "BOOLEAN", .str (jsToString merged)⟩]

/-- if (payload.pull_request.merged_at) branch (lines 937-943). -/
def prMergedAtChunk (jsDate : JsVal → Int) (now : Int) (pr : JsVal) (pfx : String) :
    Except String (List MultiValue) := do
  let ma ← jsGetField pr "merged_at"
  if jsTruthy ma then
    .ok [⟨pfx ++ "pr_merged_at", "TIMESTAMP", .str (formatTimestamp jsDate now ma)⟩]
  else
    .ok []

/-- if (payload.pull_request.user) branch (lines 945-956). -/
def prUserChunk (pr : JsVal) (pfx : String) : Except String (List MultiValue) := do
  let user ← jsGetField pr "user"
  if jsTruthy user then do
    let uid ← jsGetField user "id"
    let ulogin ← jsGetField user "login"
    .ok [⟨pfx ++ "pr_user_id", "BIGINT", .str (jsToString uid)⟩,
         ⟨pfx ++ "pr_user_login", "VARCHAR", ulogin⟩]
  else
    .ok []

/-- add_pull_request_object_infomation (measures/index.ts lines 777-957): the
pushes onto measureValues become list concatenation in source order; the
function returns the extended list. -/
def add_pull_request_object_infomation (jsDate : JsVal → Int) (now : Int)
    (measureValues : List MultiValue) (payload : JsVal) (pfx : String) :
    Except String (List MultiValue) := do
  let pr ← jsGetField payload "pull_request"
  let fixed ← prFixedEntries jsDate now pr pfx
  let cCommits ← prCommitsChunk pr pfx
  let cRv ← prReviewCommentsChunk pr pfx
  let cAssignee ← prAssigneeChunk pr pfx
  let cAssignees ← prAssigneesChunk pr pfx
  let cAutoMerge ← prAutoMergeChunk pr pfx
  let cBaseUser ← prBaseUserChunk pr pfx
  let cClosedAt ← prClosedAtChunk jsDate now pr pfx
  let cLabels ← prLabelsChunk pr pfx
  let cMerged ← prMergedChunk pr pfx
  let cMergedAt ← prMergedAtChunk jsDate now pr pfx
  let cUser ← prUserChunk pr pfx
  .ok (measureValues ++ fixed ++ cCommits ++ cRv ++ cAssignee ++ cAssignees ++
       cAutoMerge ++ cBaseUser ++ cClosedAt ++ cLabels ++ cMerged ++ cMergedAt ++ cUser)

/-- The pull_request case of getMeasure (lines 471-506). The assignee branch
calls measureValues.concat, whose result the source discards, so the two
entries it builds are evaluated but never added. -/
def pullRequestMeasureValues (jsDate : JsVal → Int) (now : Int) (payload : JsVal) :
    Except String (List MultiValue) := do
  let number ← jsGetField payload "number"
  let action ← jsGetField payload "action"
  let assignee ← jsGetField payload "assignee"
  let discarded ←
    if jsTruthy assignee then do
      let alogin ← jsGetField assignee "login"
      let aid ← jsGetField assignee "id"
      pure [MultiValue.mk "pr_assignee_login" "VARCHAR" alogin,
            MultiValue.mk "pr_assignee_id" "BIGINT" (.str (jsToString aid))]
    else
      pure ([] : List MultiValue)
  add_pull_request_object_infomation jsDate now
    [⟨"pr_number", "BIGINT", .str (jsToString number)⟩,
     ⟨"pr_action", "VARCHAR", action⟩] payload "pr_"

/-- The pull_request_review case of getMeasure (lines 508-567). -/
def pullRequestReviewMeasureValues (jsDate : JsVal → Int) (now : Int) (payload : JsVal) :
    Except String (List MultiValue) := do
  let action ← jsGetField payload "action"
  let review ← jsGetField payload "review"
  let authorAssociation ← jsGetField review "author_association"
  let commitId ← jsGetField review "commit_id"
  let reviewId ← jsGetField review "id"
  let state ← jsGetField review "state"
  let submittedAt ← jsGetField review "submitted_at"
  let user ← jsGetField review "user"
  let userChunk ←
    if jsTruthy user then do
      let uid ← jsGetField user "id"
      let ulogin ← jsGetField user "login"
      pure [MultiValue.mk "pr_rv_review_user_id" "BIGINT" (.str (jsToString uid)),
            MultiValue.mk "pr_rv_review_user_login" "VARCHAR" ulogin]
    else
      pure ([] : List MultiValue)
  add_pull_request_object_infomation jsDate now
    ([⟨"pr_rv_action", "VARCHAR", action⟩,
      ⟨"pr_rv_review_author_association", "VARCHAR", authorAssociation⟩,
      ⟨"pr_rv_review_commit_id", "VARCHAR", commitId⟩,
      ⟨"pr_rv_review_id", "VARCHAR", .str (jsToString reviewId)⟩,
      ⟨"pr_rv_review_state", "VARCHAR", state⟩,
      ⟨"pr_rv_review_submitted_at", "TIMESTAMP",
       .str (formatTimestamp jsDate now submittedAt)⟩] ++ userChunk) payload "pr_rv_"

/-- if (payload.issue.asignee) branch of add_issue_object_infomation
(lines 984-997). The guard tests the misspelled key asignee, then reads the
correctly spelled assignee. -/
def issueAsigneeChunk (issue : JsVal) (pfx : String) : Except String (List MultiValue) := do
  let asignee ← jsGetField issue "asignee"
  if jsTruthy asignee then do
    let assignee ← jsGetField issue "assignee"
    let alogin ← jsGetField assignee "login"
    let aid ← jsGetField assignee "id"
    .ok [⟨pfx ++ "issue_assignee_login", "VARCHAR", alogin⟩,
         ⟨pfx ++ "issue_assignee_id", "BIGINT", .str (jsToString aid)⟩]
  else
    .ok []

/-- Body of the issue assignees loop (lines 1004-1017); no falsy-element skip. -/
def issueAssigneesEntries (assignees : JsVal) (pfx : String) :
    List Nat → Except String (List MultiValue)
  | [] => .ok []
  | i :: rest => do
    let ai ← jsIndex assignees i
    let alogin ← jsGetField ai "login"
    let aid ← jsGetField ai "id"
    let tail ← issueAssigneesEntries assignees pfx rest
    .ok (⟨pfx ++ ("issue_assignees_" ++ toString i ++ "_login"), "VARCHAR", alogin⟩ ::
         ⟨pfx ++ ("issue_assignees_" ++ toString i ++ "_id"), "BIGINT", .str (jsToString aid)⟩ ::
         tail)

/-- Unconditional issue assignees flattening (lines 998-1017):
payload.issue.assignees.length is read without a guard. -/
def issueAssigneesChunk (issue : JsVal) (pfx : String) : Except String (List MultiValue) := do
  let assignees ← jsGetField issue "assignees"
  let len ← jsGetField assignees "length"
  let entries ← issueAssigneesEntries assignees pfx (List.range (jsLoopCount len))
  .ok (⟨pfx ++ "issue_assignees_length", "BIGINT", .str (jsToString len)⟩ :: entries)

/-- if (payload.issue.closed_at) branch (lines 1023-1029). -/
def issueClosedAtChunk (jsDate : JsVal → Int) (now : Int) (issue : JsVal) (pfx : String) :
    Except String (List MultiValue) := do
  let ca ← jsGetField issue "closed_at"
  if jsTruthy ca then
    .ok [⟨pfx ++ "issue_closed_at", "TIMESTAMP", .str (formatTimestamp jsDate now ca)⟩]
  else
    .ok []

/-- if (payload.issue.created_at) branch (lines 1035-1041). -/
def issueCreatedAtChunk (jsDate : JsVal → Int) (now : Int) (issue : JsVal) (pfx : String) :
    Except String (List MultiValue) := do
  let ca ← jsGetField issue "created_at"
  if jsTruthy ca then
    .ok [⟨pfx ++ "issue_created_at", "TIMESTAMP", .str (formatTimestamp jsDate now ca)⟩]
  else
    .ok []

/-- if (draft !== undefined && draft !== null) branch (lines 1042-1048). -/
def issueDraftChunk (issue : JsVal) (pfx : String) : Except String (List MultiValue) := do
  let draft ← jsGetField issue "draft"
  if jsIsUndefOrNull draft then
    .ok []
  else
    .ok [⟨pfx ++ "issue_draft", "BOOLEAN", .str (jsToString draft)⟩]

/-- Body of the issue labels loop (lines 1060-1078). -/
def issueLabelsEntries (labels : JsVal) (pfx : String) :
    List Nat → Except String (List MultiValue)
  | [] => .ok []
  | i :: rest => do
    let li ← jsIndex labels i
    let nm ← jsGetField li "name"
    let lid ← jsGetField li "id"
    let ldefault ← jsGetField li "default"
    let tail ← issueLabelsEntries labels pfx rest
    .ok (⟨pfx ++ ("issue_labels_" ++ toString i ++ "_name"), "VARCHAR", nm⟩ ::
         ⟨pfx ++ ("issue_labels_" ++ toString i ++ "_id"), "BIGINT", .str (jsToString lid)⟩ ::
         ⟨pfx ++ ("issue_labels_" ++ toString i ++ "_default"), "BOOLEAN", .str (jsToString ldefault)⟩ ::
         tail)

/-- Unconditional issue labels flattening (lines 1054-1078), with a length entry. -/
def issueLabelsChunk (issue : JsVal) (pfx : String) : Except String (List MultiValue) := do
  let labels ← jsGetField issue "labels"
  let len ← jsGetField labels "length"
  let entries ← issueLabelsEntries labels pfx (List.range (jsLoopCount len))
  .ok (⟨pfx ++ "issue_labels_length", "BIGINT", .str (jsToString len)⟩ :: entries)

/-- if (payload.issue.updated_at) branch (lines 1094-1100). -/
def issueUpdatedAtChunk (jsDate : JsVal → Int) (now : Int) (issue : JsVal) (pfx : String) :
    Except String (List MultiValue) := do
  let ua ← jsGetField issue "updated_at"
  if jsTruthy ua then
    .ok [⟨pfx ++ "issue_updated_at", "TIMESTAMP", .str (formatTimestamp jsDate now ua)⟩]
  else
    .ok []

/-- if (payload.issue.user) branch (lines 1101-1114). -/
def issueUserChunk (issue : JsVal) (pfx : String) : Except String (List MultiValue) := do
  let user ← jsGetField issue "user"
  if jsTruthy user then do
    let uid ← jsGetField user "id"
    let ulogin ← jsGetField user "login"
    .ok [⟨pfx ++ "issue_user_id", "BIGINT", .str (jsToString uid)⟩,
         ⟨pfx ++ "issue_user_login", "VARCHAR", ulogin⟩]
  else
    .ok []

/-- add_issue_object_infomation (measures/index.ts lines 979-1115), in source
push order. -/
def add_issue_object_infomation (jsDate : JsVal → Int) (now : Int)
    (measureValues : List MultiValue) (payload : JsVal) (pfx : String) :
    Except String (List MultiValue) := do
  let issue ← jsGetField payload "issue"
  let cAsignee ← issueAsigneeChunk issue pfx
  let cAssignees ← issueAssigneesChunk issue pfx
  let authorAssociation ← jsGetField issue "author_association"
  let cClosedAt ← issueClosedAtChunk jsDate now issue pfx
  let comments ← jsGetField issue "comments"
  let cCreatedAt ← issueCreatedAtChunk jsDate now issue pfx
  let cDraft ← issueDraftChunk issue pfx
  let idv ← jsGetField issue "id"
  let cLabels ← issueLabelsChunk issue pfx
  let locked ← jsGetField issue "locked"
  let number ← jsGetField issue "number"
  let state ← jsGetField issue "state"
  let cUpdatedAt ← issueUpdatedAtChunk jsDate now issue pfx
  let cUser ← issueUserChunk issue pfx
  .ok (measureValues ++ cAsignee ++ cAssignees ++
       [⟨pfx ++ "issue_author_association", "VARCHAR", authorAssociation⟩] ++ cClosedAt ++
       [⟨pfx ++ "issue_comments", "BIGINT", .str (jsToString comments)⟩] ++ cCreatedAt ++ cDraft ++
       [⟨pfx ++ "issue_id", "BIGINT", .str (jsToString idv)⟩] ++ cLabels ++
       [⟨pfx ++ "issue_locked", "BOOLEAN", .str (jsToString locked)⟩,
        ⟨pfx ++ "issue_number", "BIGINT", .str (jsToString number)⟩,
        ⟨pfx ++ "issue_state", "VARCHAR", state⟩] ++ cUpdatedAt ++ cUser)

/-- The issues case of getMeasure (lines 568-597). Unlike pull_request, the
top-level assignee entries are pushed, not discarded. -/
def issuesMeasureValues (jsDate : JsVal → Int) (now : Int) (payload : JsVal) :
    Except String (List MultiValue) := do
  let action ← jsGetField payload "action"
  let assignee ← jsGetField payload "assignee"
  let assigneeChunk ←
    if jsTruthy assignee then do
      let alogin ← jsGetField assignee "login"
      let aid ← jsGetField assignee "id"
      pure [MultiValue.mk "issues_assignee_login" "VARCHAR" alogin,
            MultiValue.mk "issues_assignee_id" "BIGINT" (.str (jsToString aid))]
    else
      pure ([] : List MultiValue)
  add_issue_object_infomation jsDate now
    ([⟨"issues_action", "VARCHAR", action⟩] ++ assigneeChunk) payload "issues_"

/-- The workflow_run case of getMeasure (lines 599-758), in source push order. -/
def workflowRunMeasureValues (jsDate : JsVal → Int) (now : Int) (payload : JsVal) :
    Except String (List MultiValue) := do
  let action ← jsGetField payload "action"
  let workflow ← jsGetField payload "workflow"
  let wfCreatedAt ← jsGetField workflow "created_at"
  let wfId ← jsGetField workflow "id"
  let wfName ← jsGetField workflow "name"
  let wfPath ← jsGetField workflow "path"
  let wfState ← jsGetField workflow "state"
  let wfUpdatedAt ← jsGetField workflow "updated_at"
  let wr ← jsGetField payload "workflow_run"
  let actor ← jsGetField wr "actor"
  let actorId ← jsGetField actor "id"
  let actorLogin ← jsGetField actor "login"
  let checkSuiteId ← jsGetField wr "check_suite_id"
  let checkSuiteNodeId ← jsGetField wr "check_suite_node_id"
  let conclusion ← jsGetField wr "conclusion"
  let cConclusion : List MultiValue :=
    if jsTruthy conclusion then [⟨"wf_run_wf_run_conclusion", "VARCHAR", conclusion⟩] else []
  let wrCreatedAt ← jsGetField wr "created_at"
  let wrEvent ← jsGetField wr "event"
  let headBranch ← jsGetField wr "head_branch"
  let cHeadBranch : List MultiValue :=
    if jsTruthy headBranch then [⟨"wf_run_wf_run_head_branch", "VARCHAR", headBranch⟩] else []
  let wrId ← jsGetField wr "id"
  let wrName ← jsGetField wr "name"
  let cName : List MultiValue :=
    if jsTruthy wrName then [⟨"wf_run_wf_run_name", "VARCHAR", wrName⟩] else []
  let nodeId ← jsGetField wr "node_id"
  let wrPath ← jsGetField wr "path"
  let runAttempt ← jsGetField wr "run_attempt"
  let runNumber ← jsGetField wr "run_number"
  let runStartedAt ← jsGetField wr "run_started_at"
  let trig ← jsGetField wr "triggering_actor"
  let cTrig ←
    if jsTruthy trig then do
      let tid ← jsGetField trig "id"
      let tlogin ← jsGetField trig "login"
      pure [MultiValue.mk "wf_run_wf_run_triggering_actor_id" "BIGINT" (.str (jsToString tid)),
            MultiValue.mk "wf_run_wf_run_triggering_actor_login" "VARCHAR" tlogin]
    else
      pure ([] : List MultiValue)
  let wrUpdatedAt ← jsGetField wr "updated_at"
  let workflowId ← jsGetField wr "workflow_id"
  .ok ([⟨"wf_run_action", "VARCHAR", action⟩,
        ⟨"wf_run_wf_created_at", "TIMESTAMP", .str (formatTimestamp jsDate now wfCreatedAt)⟩,
        ⟨"wf_run_wf_id", "BIGINT", .str (jsToString wfId)⟩,
        ⟨"wf_run_wf_name", "VARCHAR", wfName⟩,
        ⟨"wf_run_wf_path", "VARCHAR", wfPath⟩,
        ⟨"wf_run_wf_state", "VARCHAR", wfState⟩,
        ⟨"wf_run_wf_updated_at", "TIMESTAMP", .str (formatTimestamp jsDate now wfUpdatedAt)⟩,
        ⟨"wf_run_wf_run_actor_id", "BIGINT", .str (jsToString actorId)⟩,
        ⟨"wf_run_wf_run_actor_login", "VARCHAR", actorLogin⟩,
        ⟨"wf_run_wf_run_check_suite_id", "BIGINT", .str (jsToString checkSuiteId)⟩,
        ⟨"wf_run_wf_run_check_suite_node_id", "VARCHAR", checkSuiteNodeId⟩] ++ cConclusion ++
       [⟨"wf_run_wf_run_created_at", "TIMESTAMP", .str (formatTimestamp jsDate now wrCreatedAt)⟩,
        ⟨"wf_run_wf_run_event", "VARCHAR", wrEvent⟩] ++ cHeadBranch ++
       [⟨"wf_run_wf_run_id", "BIGINT", .str (jsToString wrId)⟩] ++ cName ++
       [⟨"wf_run_wf_run_node_id", "VARCHAR", nodeId⟩,
        ⟨"wf_run_wf_run_path", "VARCHAR", .str (jsToString wrPath)⟩,
        ⟨"wf_run_wf_run_attempt", "BIGINT", .str (jsToString runAttempt)⟩,
        ⟨"wf_run_wf_run_number", "BIGINT", .str (jsToString runNumber)⟩,
        ⟨"wf_run_wf_run_started_at", "TIMESTAMP", .str (formatTimestamp jsDate now runStartedAt)⟩] ++
       cTrig ++
       [⟨"wf_run_wf_run_updated_at", "TIMESTAMP", .str (formatTimestamp jsDate now wrUpdatedAt)⟩,
        ⟨"wf_run_wf_run_wf_id", "BIGINT", .str (jsToString workflowId)⟩])

/-- getMeasure from measures/index.ts (lines 411-765). The switch statement
becomes a chain of string comparisons; unrecognized event types fall through to
the fixed fallback single measure with its value serialized as the string 1. -/
def getMeasure (jsDate : JsVal → Int) (now : Int) (event_type : String) (payload : JsVal) :
    Except String measureType :=
  if event_type = "push" then do
    let mv ← pushMeasureValues payload
    .ok (.multi "push" mv)
  else if event_type = "pull_request" then do
    let mv ← pullRequestMeasureValues jsDate now payload
    .ok (.multi "pull_request" mv)
  else if event_type = "pull_request_review" then do
    let mv ← pullRequestReviewMeasureValues jsDate now payload
    .ok (.multi "pull_request" mv)
  else if event_type = "issues" then do
    let mv ← issuesMeasureValues jsDate now payload
    .ok (.multi "issue" mv)
  else if event_type = "workflow_run" then do
    let mv ← workflowRunMeasureValues jsDate now payload
    .ok (.multi "workflow_run" mv)
  else
    .ok (.single "dummyMeasure" "BIGINT" (.str "1"))

/-- Environment of the webhook-handler Lambda (index.ts lines 1-304): the
external collaborators it calls, abstracted as pure oracles. ipAllowed models
GITHUB_IP_RANGES.some(range => ipRangeCheck(ip, range)); verify models
webhooks.verify over the secret already fetched (true means no throw);
secretOk/snsOk/s3Ok tell whether the SSM fetch, the SNS publish and the S3 put
succeed (a false is an exception reaching the outer catch). -/
structure HandlerDeps where
  ipAllowed : String → Bool
  base64Decode : String → String
  secretOk : Bool
  verify : String → Option String → Bool
  parseJson : String → Except String JsVal
  snsOk : Bool
  s3Ok : Bool
  jsDate : JsVal → Int
  now : Int

/-- The API Gateway event as the handler reads it. body is a string or absent
(API Gateway delivers string bodies); headers is the raw header list. -/
structure LambdaEvent where
  sourceIp : Option String
  body : Option String
  isBase64Encoded : Bool
  headers : List (String × String)

/-- The response bodies the handler can produce, by source return site. -/
inductive RespBody where
  | accessDenied
  | noBody
  | invalidSignature
  | invalidJson (err : String)
  | success (eventType : Option String)
  | serverError

/-- An HTTP response: statusCode plus structured body. -/
structure HandlerResponse where
  statusCode : Nat
  body : RespBody

/-- JavaScript a || b on possibly-undefined header strings: the empty string is
falsy, so it falls through to the second operand. -/
def jsStrOr (a b : Option String) : Option String :=
  match a with
  | some s => if s = "" then b else some s
  | none => b

/-- headers[k1] || headers[k2], the case-insensitive double lookup of
index.ts lines 182-186. -/
def headerLookup (headers : List (String × String)) (k1 k2 : String) : Option String :=
  jsStrOr (List.lookup k1 headers) (List.lookup k2 headers)

/-- The body after the base64 step (index.ts lines 176-179): decoded only when
the flag is set and the body is truthy. -/
def effectiveBody (deps : HandlerDeps) (event : LambdaEvent) : Option String :=
  match event.body with
  | some s => if event.isBase64Encoded && s != "" then some (deps.base64Decode s) else some s
  | none => none

/-- The JavaScript k in v operator; throws TypeError on non-objects. -/
def jsHasKeyE (v : JsVal) (k : String) : Except String Bool :=
  match v with
  | .obj fields => .ok (List.lookup k fields).isSome
  | .arr elems => .ok (k = "length" || (List.range elems.length).any (fun i => toString i = k))
  | _ => .error "TypeError: cannot use in operator"

/-- The guard of publishPullRequestEventToSnsTopic (index.ts lines 110-117):
short-circuiting conjunction of in-tests, where the nested in-tests can throw. -/
def snsCheck (data : JsVal) : Except String Bool := do
  let h1 ← jsHasKeyE data "number"
  if h1 then do
    let h2 ← jsHasKeyE data "action"
    if h2 then do
      let h3 ← jsHasKeyE data "organization"
      if h3 then do
        let org ← jsGetField data "organization"
        let h4 ← jsHasKeyE org "login"
        if h4 then do
          let h5 ← jsHasKeyE data "repository"
          if h5 then do
            let repo ← jsGetField data "repository"
            jsHasKeyE repo "name"
          else .ok false
        else .ok false
      else .ok false
    else .ok false
  else .ok false

/-- getMeasure as called from sendToS3 (index.ts line 71) with the raw header
value: switch(undefined) matches no case and yields the fallback measure. -/
def getMeasureForEvent (jsDate : JsVal → Int) (now : Int) (githubEvent : Option String)
    (payload : JsVal) : Except String measureType :=
  match githubEvent with
  | some s => getMeasure jsDate now s payload
  | none => .ok (.single "dummyMeasure" "BIGINT" (.str "1"))

/-- Status-relevant behavior of sendToS3 (index.ts lines 42-104): the measure
extraction may throw (mapped to 500 by the outer catch); otherwise the S3 put
decides between 200 and 500. Record and key construction cannot throw and do
not affect the response. -/
def sendToS3Status (deps : HandlerDeps) (githubEvent : Option String) (payload : JsVal) :
    HandlerResponse :=
  match getMeasureForEvent deps.jsDate deps.now githubEvent payload with
  | .error _ => ⟨500, .serverError⟩
  | .ok _ => if deps.s3Ok then ⟨200, .success githubEvent⟩ else ⟨500, .serverError⟩

/-- The handler body after the source-IP gate (index.ts lines 170-302):
base64 step, empty-body check, secret fetch, signature verification, JSON
parse, SNS publish for pull_request events, S3 write. The delivery-id header
is only logged and forwarded, never branched on. -/
def handlerAfterIp (deps : HandlerDeps) (event : LambdaEvent) : HandlerResponse :=
  let githubEvent := headerLookup event.headers "X-GitHub-Event" "x-github-event"
  let signature := headerLookup event.headers "X-Hub-Signature-256" "x-hub-signature-256"
  match effectiveBody deps event with
  | none => ⟨400, .noBody⟩
  | some bodyStr =>
    if bodyStr = "" then ⟨400, .noBody⟩
    else if !deps.secretOk then ⟨500, .serverError⟩
    else if !deps.verify bodyStr signature then ⟨401, .invalidSignature⟩
    else
      match deps.parseJson bodyStr with
      | .error e => ⟨400, .invalidJson e⟩
      | .ok parsedBody =>
        if githubEvent = some "pull_request" then
          match snsCheck parsedBody with
          | .error _ => ⟨500, .serverError⟩
          | .ok b =>
            if b && !deps.snsOk then ⟨500, .serverError⟩
            else sendToS3Status deps githubEvent parsedBody
        else sendToS3Status deps githubEvent parsedBody

/-- The exported Lambda handler (index.ts lines 138-304), starting with the
GitHub source-IP allowlist gate (lines 142-168). -/
def handler (deps : HandlerDeps) (event : LambdaEvent) : HandlerResponse :=
  match event.sourceIp with
  | some ip => if deps.ipAllowed ip then handlerAfterIp deps event else ⟨403, .accessDenied⟩
  | none => handlerAfterIp deps event

/-- The source-IP gate passes: no detectable source IP, or an allowlisted one. -/
def ipPass (deps : HandlerDeps) (event : LambdaEvent) : Prop :=
  match event.sourceIp with
  | some ip => deps.ipAllowed ip = true
  | none => True

/-- A dummy Date library for concrete evaluations: every timestamp maps to 0. -/
def jd0 : JsVal → Int := fun _ => 0

/-- Concrete functioning environment for handler witnesses: allowlisted IP,
valid signature, JSON parser that rejects every body. -/
def sampleDeps : HandlerDeps :=
  ⟨fun _ => true, id, true, fun _ _ => true, fun _ => .error "Unexpected token", true, true,
   jd0, 0⟩

/-- Concrete request: GitHub IP, plain-text body, pull_request event headers. -/
def sampleEvent : LambdaEvent :=
  ⟨some "140.82.112.1", some "not json", false,
   [("X-GitHub-Event", "pull_request"), ("X-GitHub-Delivery", "d1"),
    ("X-Hub-Signature-256", "sha256=abc")]⟩

/-- The push scenario payload from the specification. -/
def pushScenarioPayload : JsVal :=
  .obj [("after", .str "abc123"), ("before", .str "000"),
        ("commits", .arr [.obj [], .obj []]),
        ("created", .bool false), ("deleted", .bool false), ("forced", .bool false),
        ("pusher", .obj [("name", .str "alice")]),
        ("ref", .str "refs/heads/main")]

/-- The measure the specification expects for the push scenario payload. -/
def pushScenarioMeasure : measureType :=
  .multi "push"
    [⟨"push_after", "VARCHAR", .str "abc123"⟩,
     ⟨"push_before", "VARCHAR", .str "000"⟩,
     ⟨"push_commits_length", "BIGINT", .str "2"⟩,
     ⟨"push_created", "BOOLEAN", .str "false"⟩,
     ⟨"push_deleted", "BOOLEAN", .str "false"⟩,
     ⟨"push_forced", "BOOLEAN", .str "false"⟩,
     ⟨"push_pusher_name", "VARCHAR", .str "alice"⟩,
     ⟨"push_ref", "VARCHAR", .str "refs/heads/main"⟩]

/-- The measure m is a MULTI measure containing the entry e. -/
def measureHasEntry (m : measureType) (e : MultiValue) : Prop :=
  match m with
  | .multi _ vs => e ∈ vs
  | .single _ _ _ => False

/-- n is pfx followed by one of the suffixes in L. -/
def nameFrom (pfx : String) (L : List String) (n : String) : Prop :=
  ∃ s ∈ L, n = pfx ++ s

/-- Suffixes of the eleven unconditional entries of
add_pull_request_object_infomation. -/
def prFixedSuffixes : List String :=
  ["pr_author_association", "pr_base_label", "pr_base_ref", "pr_base_sha", "pr_created_at",
   "pr_draft", "pr_id", "pr_locked", "pr_number", "pr_state", "pr_update_at"]

/-- Suffixes of the bounded indexed assignees entries (indices 0 through 4). -/
def prAssigneesIdxSuffixes : List String :=
  ["pr_assignees_0_id", "pr_assignees_0_login", "pr_assignees_1_id", "pr_assignees_1_login",
   "pr_assignees_2_id", "pr_assignees_2_login", "pr_assignees_3_id", "pr_assignees_3_login",
   "pr_assignees_4_id", "pr_assignees_4_login"]

/-- Suffixes of the bounded indexed labels entries (indices 0 through 4). -/
def prLabelsIdxSuffixes : List String :=
  ["pr_labels_0_name", "pr_labels_1_name", "pr_labels_2_name", "pr_labels_3_name",
   "pr_labels_4_name"]

/-- Suffixes of the conditionally emitted entries of
add_pull_request_object_infomation. -/
def prOptionalSuffixes : List String :=
  ["pr_commits", "pr_rv_comments", "pr_assignee_id", "pr_assignee_login", "pr_assignees_length",
   "pr_auto_merge_merge_method", "pr_base_user_id", "pr_base_user_login", "pr_closed_at",
   "pr_merged", "pr_merged_at", "pr_user_id", "pr_user_login"]

/-- Every suffix add_pull_request_object_infomation can ever emit. -/
def prHelperSuffixes : List String :=
  prFixedSuffixes ++ prOptionalSuffixes ++ prAssigneesIdxSuffixes ++ prLabelsIdxSuffixes

/-- The same set with the merged suffix removed. -/
def prHelperSuffixesNoMerged : List String :=
  prHelperSuffixes.erase "pr_merged"

/-- A minimal complete pull_request object used in concrete payloads, with a
chosen labels array and optional extra fields. -/
def samplePrObject (labels : JsVal) (extra : List (String × JsVal)) : JsVal :=
  .obj ([("author_association", .str "OWNER"),
         ("base", .obj [("label", .str "b"), ("ref", .str "main"), ("sha", .str "s")]),
         ("created_at", .str "T"),
         ("draft", .bool false),
         ("id", .num 3),
         ("locked", .bool false),
         ("number", .num 1),
         ("state", .str "open"),
         ("updated_at", .str "T"),
         ("labels", labels)] ++ extra)

/-- pull_request payload with a top-level assignee and merged: false. -/
def samplePrPayload : JsVal :=
  .obj [("number", .num 1), ("action", .str "opened"),
        ("assignee", .obj [("login", .str "bob"), ("id", .num 2)]),
        ("pull_request", samplePrObject (.arr []) [("merged", .bool false)])]

/-- pull_request payload whose merged field is absent. -/
def samplePrPayloadNoMerged : JsVal :=
  .obj [("number", .num 1), ("action", .str "opened"),
        ("pull_request", samplePrObject (.arr []) [])]

/-- pull_request payload whose labels array holds one label named bug. -/
def samplePrLabelsPayload : JsVal :=
  .obj [("number", .num 1), ("action", .str "opened"),
        ("pull_request", samplePrObject (.arr [.obj [("name", .str "bug")]]) [])]

/-- pull_request_review payload with a complete review and pull_request object. -/
def sampleReviewPayload : JsVal :=
  .obj [("action", .str "submitted"),
        ("review", .obj [("author_association", .str "NONE"), ("commit_id", .str "c"),
                         ("id", .num 9), ("state", .str "approved"),
                         ("submitted_at", .str "T")]),
        ("pull_request", samplePrObject (.arr []) [("merged", .bool false)])]

/-- The eleven entries contributed unconditionally for the sample pull_request
object under prefix pr_ with the dummy Date library. -/
def samplePrFixed : List MultiValue :=
  [⟨"pr_pr_author_association", "VARCHAR", .str "OWNER"⟩,
   ⟨"pr_pr_base_label", "VARCHAR", .str "b"⟩,
   ⟨"pr_pr_base_ref", "VARCHAR", .str "main"⟩,
   ⟨"pr_pr_base_sha", "VARCHAR", .str "s"⟩,
   ⟨"pr_pr_created_at", "TIMESTAMP", .str "0"⟩,
   ⟨"pr_pr_draft", "BOOLEAN", .str "false"⟩,
   ⟨"pr_pr_id", "BIGINT", .str "3"⟩,
   ⟨"pr_pr_locked", "BOOLEAN", .str "false"⟩,
   ⟨"pr_pr_number", "BIGINT", .str "1"⟩,
   ⟨"pr_pr_state", "VARCHAR", .str "open"⟩,
   ⟨"pr_pr_update_at", "TIMESTAMP", .str "0"⟩]

/-- The full measure extracted from samplePrPayload. -/
def samplePrMeasure : measureType :=
  .multi "pull_request"
    ([⟨"pr_number", "BIGINT", .str "1"⟩, ⟨"pr_action", "VARCHAR", .str "opened"⟩] ++
     samplePrFixed ++ [⟨"pr_pr_merged", "BOOLEAN", .str "false"⟩])

/-- The full measure extracted from samplePrPayloadNoMerged. -/
def samplePrMeasureNoMerged : measureType :=
  .multi "pull_request"
    ([⟨"pr_number", "BIGINT", .str "1"⟩, ⟨"pr_action", "VARCHAR", .str "opened"⟩] ++
     samplePrFixed)

/-- The measure extracted from samplePrLabelsPayload: the single indexed label
entry appears but no length entry for the labels array. -/
def samplePrLabelsMeasure : measureType :=
  .multi "pull_request"
    ([⟨"pr_number", "BIGINT", .str "1"⟩, ⟨"pr_action", "VARCHAR", .str "opened"⟩] ++
     samplePrFixed ++ [⟨"pr_pr_labels_0_name", "VARCHAR", .str "bug"⟩])

/-- The eleven unconditional entries under prefix pr_rv_ for the sample
pull_request object. -/
def samplePrFixedRv : List MultiValue :=
  [⟨"pr_rv_pr_author_association", "VARCHAR", .str "OWNER"⟩,
   ⟨"pr_rv_pr_base_label", "VARCHAR", .str "b"⟩,
   ⟨"pr_rv_pr_base_ref", "VARCHAR", .str "main"⟩,
   ⟨"pr_rv_pr_base_sha", "VARCHAR", .str "s"⟩,
   ⟨"pr_rv_pr_created_at", "TIMESTAMP", .str "0"⟩,
   ⟨"pr_rv_pr_draft", "BOOLEAN", .str "false"⟩,
   ⟨"pr_rv_pr_id", "BIGINT", .str "3"⟩,
   ⟨"pr_rv_pr_locked", "BOOLEAN", .str "false"⟩,
   ⟨"pr_rv_pr_number", "BIGINT", .str "1"⟩,
   ⟨"pr_rv_pr_state", "VARCHAR", .str "open"⟩,
   ⟨"pr_rv_pr_update_at", "TIMESTAMP", .str "0"⟩]

/-- The measure extracted from sampleReviewPayload. -/
def sampleReviewMeasure : measureType :=
  .multi "pull_request"
    ([⟨"pr_rv_action", "VARCHAR", .str "submitted"⟩,
      ⟨"pr_rv_review_author_association", "VARCHAR", .str "NONE"⟩,
      ⟨"pr_rv_review_commit_id", "VARCHAR", .str "c"⟩,
      ⟨"pr_rv_review_id", "VARCHAR", .str "9"⟩,
      ⟨"pr_rv_review_state", "VARCHAR", .str "approved"⟩,
      ⟨"pr_rv_review_submitted_at", "TIMESTAMP", .str "0"⟩] ++
     samplePrFixedRv ++ [⟨"pr_rv_pr_merged", "BOOLEAN", .str "false"⟩])

/-! ## Helper lemmas -/

theorem exceptBind_ok {ε α β : Type} {e : Except ε α} {g : α → Except ε β} {b : β}
    (h : e >>= g = .ok b) : ∃ a, e = .ok a ∧ g a = .ok b := by
  cases e with
  | error err =>
    simp only [Bind.bind, Except.bind] at h
    exact (Except.noConfusion h)
  | ok a => exact ⟨a, rfl, h⟩

theorem nameFrom_append {pfx s : String} {L : List String} (h : s ∈ L) :
    nameFrom pfx L (pfx ++ s) := ⟨s, h, rfl⟩

theorem nameFrom_mono {pfx n : String} {L L' : List String} (hsub : L ⊆ L')
    (h : nameFrom pfx L n) : nameFrom pfx L' n := by
  obtain ⟨s, hs, rfl⟩ := h
  exact ⟨s, hsub hs, rfl⟩

/-! ## Easy claims -/

/-- C5: getMeasure on the push scenario payload returns exactly the Multi
measure named push with the eight expected entries and no push_base_ref. -/
theorem push_scenario_measure : ∀ (jsDate : JsVal → Int) (now : Int),
    getMeasure jsDate now "push" pushScenarioPayload = .ok pushScenarioMeasure :=
  fun _ _ => rfl

/-- C8: the extractor is deterministic; in particular its output does not
depend on the ambient clock, the only mutable state available to it. -/
theorem getMeasure_deterministic :
    ∀ (jsDate : JsVal → Int) (n1 n2 : Int) (t : String) (p : JsVal),
      getMeasure jsDate n1 t p = getMeasure jsDate n2 t p :=
  fun _ _ _ _ _ => rfl

/-- C4: every event type outside the known set maps to the fixed fallback
single measure, its value serialized as the string 1. -/
theorem unknown_event_fallback_measure :
    ∀ (jsDate : JsVal → Int) (now : Int) (t : String) (p : JsVal),
      t ≠ "push" → t ≠ "pull_request" → t ≠ "pull_request_review" → t ≠ "issues" →
      t ≠ "workflow_run" →
      getMeasure jsDate now t p = .ok (.single "dummyMeasure" "BIGINT" (.str "1")) := by
  intro jsDate now t p h1 h2 h3 h4 h5
  simp [getMeasure, h1, h2, h3, h4, h5]

/-- Witness for C4 at the event type some_future_event with an empty payload. -/
theorem unknown_event_fallback_measure_witness :
    getMeasure jd0 0 "some_future_event" (.obj []) =
      .ok (.single "dummyMeasure" "BIGINT" (.str "1")) :=
  unknown_event_fallback_measure jd0 0 "some_future_event" (.obj [])
    (by decide) (by decide) (by decide) (by decide) (by decide)

/-- C1 counterexample: getMeasure on the push event with an empty payload does
throw (a TypeError from reading length of the missing commits array), refuting
the claim that no known event type crashes on the empty payload. -/
theorem push_empty_payload_throws :
    getMeasure jd0 0 "push" (JsVal.obj []) = .error "TypeError: cannot read length" := rfl

/-- C1 amended: for each of the five known event types, getMeasure applied to
the empty payload throws a TypeError while dereferencing a missing nested
object, instead of returning a Measure. -/
theorem empty_payload_throws_on_known_events : ∀ (jsDate : JsVal → Int) (now : Int),
    getMeasure jsDate now "push" (JsVal.obj []) =
      .error "TypeError: cannot read length" ∧
    getMeasure jsDate now "pull_request" (JsVal.obj []) =
      .error "TypeError: cannot read author_association" ∧
    getMeasure jsDate now "pull_request_review" (JsVal.obj []) =
      .error "TypeError: cannot read author_association" ∧
    getMeasure jsDate now "issues" (JsVal.obj []) =
      .error "TypeError: cannot read asignee" ∧
    getMeasure jsDate now "workflow_run" (JsVal.obj []) =
      .error "TypeError: cannot read created_at" :=
  fun _ _ => ⟨rfl, rfl, rfl, rfl, rfl⟩

/-- C6 counterexample: a known event type with a payload on which getMeasure
does not return any measure at all, refuting that every known event type
returns a Multi measure for every payload. -/
theorem workflow_run_empty_payload_not_multi :
    getMeasure jd0 0 "workflow_run" (JsVal.obj []) =
      .error "TypeError: cannot read created_at" := rfl

/-- C10 counterexample: getMeasure on pull_request_review with the empty
payload throws instead of returning a Multi measure. -/
theorem review_empty_payload_throws :
    getMeasure jd0 0 "pull_request_review" (JsVal.obj []) =
      .error "TypeError: cannot read author_association" := rfl

/-- C10 amended: whenever getMeasure on a pull_request_review event returns a
measure, it is a Multi measure whose measureName is pull_request, the same
name as for pull_request events. -/
theorem review_measure_named_pull_request :
    ∀ (jsDate : JsVal → Int) (now : Int) (p : JsVal) (m : measureType),
      getMeasure jsDate now "pull_request_review" p = .ok m →
      ∃ vs, m = .multi "pull_request" vs := by
  intro jsDate now p m h
  simp only [getMeasure, reduceIte] at h
  obtain ⟨mv, hmv, hok⟩ := exceptBind_ok h
  exact ⟨mv, by injection hok with h2; exact h2.symm⟩

/-- Witness for C10 at a concrete complete review payload. -/
theorem review_measure_named_pull_request_witness :
    ∃ vs, sampleReviewMeasure = .multi "pull_request" vs :=
  review_measure_named_pull_request jd0 0 sampleReviewPayload sampleReviewMeasure rfl

/-- C6: every call on a known event type that returns a measure returns a
MULTI measure; the single-measure shape arises exactly on the fallback path
for unrecognized event types. -/
theorem known_events_multi_unknown_single :
    (∀ (jsDate : JsVal → Int) (now : Int) (t : String) (p : JsVal) (m : measureType),
      (t = "push" ∨ t = "pull_request" ∨ t = "pull_request_review" ∨ t = "issues" ∨
       t = "workflow_run") →
      getMeasure jsDate now t p = .ok m → m.isMulti = true) ∧
    (∀ (jsDate : JsVal → Int) (now : Int) (t : String) (p : JsVal),
      t ≠ "push" → t ≠ "pull_request" → t ≠ "pull_request_review" → t ≠ "issues" →
      t ≠ "workflow_run" →
      getMeasure jsDate now t p = .ok (.single "dummyMeasure" "BIGINT" (.str "1"))) := by
  constructor
  · intro jsDate now t p m ht h
    rcases ht with rfl | rfl | rfl | rfl | rfl <;>
      simp only [getMeasure, reduceIte] at h <;>
      obtain ⟨mv, hmv, hok⟩ := exceptBind_ok h <;>
      injection hok with hok <;>
      subst hok <;>
      rfl
  · intro jsDate now t p h1 h2 h3 h4 h5
    simp [getMeasure, h1, h2, h3, h4, h5]

/-- Witness for C6: a known event type yielding a Multi measure and an unknown
one yielding the fallback single measure. -/
theorem known_events_multi_unknown_single_witness :
    measureType.isMulti pushScenarioMeasure = true ∧
    getMeasure jd0 0 "some_other_event" (.obj []) =
      .ok (.single "dummyMeasure" "BIGINT" (.str "1")) :=
  ⟨known_events_multi_unknown_single.1 jd0 0 "push" pushScenarioPayload pushScenarioMeasure
    (Or.inl rfl) rfl,
   known_events_multi_unknown_single.2 jd0 0 "some_other_event" (.obj [])
    (by decide) (by decide) (by decide) (by decide) (by decide)⟩

/-! ## Name analysis of the pull_request helper -/

theorem jsLoopCount_le_five (v : JsVal) : jsLoopCount v ≤ 5 := by
  cases v <;> simp [jsLoopCount]

theorem assignees_id_suffix_mem (i : Nat) (hi : i < 5) :
    ("pr_assignees_" ++ toString i ++ "_id") ∈ prAssigneesIdxSuffixes := by
  interval_cases i <;> decide

theorem assignees_login_suffix_mem (i : Nat) (hi : i < 5) :
    ("pr_assignees_" ++ toString i ++ "_login") ∈ prAssigneesIdxSuffixes := by
  interval_cases i <;> decide

theorem labels_suffix_mem (i : Nat) (hi : i < 5) :
    ("pr_labels_" ++ toString i ++ "_name") ∈ prLabelsIdxSuffixes := by
  interval_cases i <;> decide

theorem prFixedEntries_names {jsDate : JsVal → Int} {now : Int} {pr : JsVal} {pfx : String}
    {out : List MultiValue} (h : prFixedEntries jsDate now pr pfx = .ok out) :
    ∀ e ∈ out, nameFrom pfx prFixedSuffixes e.Name := by
  unfold prFixedEntries at h
  obtain ⟨a1, h1, h⟩ := exceptBind_ok h
  obtain ⟨a2, h2, h⟩ := exceptBind_ok h
  obtain ⟨a3, h3, h⟩ := exceptBind_ok h
  obtain ⟨a4, h4, h⟩ := exceptBind_ok h
  obtain ⟨a5, h5, h⟩ := exceptBind_ok h
  obtain ⟨a6, h6, h⟩ := exceptBind_ok h
  obtain ⟨a7, h7, h⟩ := exceptBind_ok h
  obtain ⟨a8, h8, h⟩ := exceptBind_ok h
  obtain ⟨a9, h9, h⟩ := exceptBind_ok h
  obtain ⟨a10, h10, h⟩ := exceptBind_ok h
  obtain ⟨a11, h11, h⟩ := exceptBind_ok h
  obtain ⟨a12, h12, h⟩ := exceptBind_ok h
  injection h with h
  subst h
  intro e he
  simp only [List.mem_cons, List.not_mem_nil, or_false] at he
  rcases he with rfl | rfl | rfl | rfl | rfl | rfl | rfl | rfl | rfl | rfl | rfl
  all_goals exact nameFrom_append (by decide)

theorem prCommitsChunk_names {pr : JsVal} {pfx : String} {out : List MultiValue}
    (h : prCommitsChunk pr pfx = .ok out) :
    ∀ e ∈ out, nameFrom pfx ["pr_commits"] e.Name := by
  unfold prCommitsChunk at h
  obtain ⟨c, hc, h⟩ := exceptBind_ok h
  split at h
  · injection h with h
    subst h
    intro e he
    simp only [List.mem_singleton] at he
    subst he
    exact nameFrom_append (by decide)
  · injection h with h
    subst h
    intro e he
    simp at he

theorem prReviewCommentsChunk_names {pr : JsVal} {pfx : String} {out : List MultiValue}
    (h : prReviewCommentsChunk pr pfx = .ok out) :
    ∀ e ∈ out, nameFrom pfx ["pr_rv_comments"] e.Name := by
  unfold prReviewCommentsChunk at h
  obtain ⟨c, hc, h⟩ := exceptBind_ok h
  split at h
  · injection h with h
    subst h
    intro e he
    simp only [List.mem_singleton] at he
    subst he
    exact nameFrom_append (by decide)
  · injection h with h
    subst h
    intro e he
    simp at he

theorem prAssigneeChunk_names {pr : JsVal} {pfx : String} {out : List MultiValue}
    (h : prAssigneeChunk pr pfx = .ok out) :
    ∀ e ∈ out, nameFrom pfx ["pr_assignee_id", "pr_assignee_login"] e.Name := by
  unfold prAssigneeChunk at h
  obtain ⟨a, ha, h⟩ := exceptBind_ok h
  split at h
  · obtain ⟨aid, hid, h⟩ := exceptBind_ok h
    obtain ⟨alogin, hlogin, h⟩ := exceptBind_ok h
    injection h with h
    subst h
    intro e he
    simp only [List.mem_cons, List.not_mem_nil, or_false] at he
    rcases he with rfl | rfl
    all_goals exact nameFrom_append (by decide)
  · injection h with h
    subst h
    intro e he
    simp at he

theorem prAssigneesEntries_names {assignees : JsVal} {pfx : String} :
    ∀ {idx : List Nat} {out : List MultiValue},
      (∀ i ∈ idx, i < 5) →
      prAssigneesEntries assignees pfx idx = .ok out →
      ∀ e ∈ out, nameFrom pfx prAssigneesIdxSuffixes e.Name := by
  intro idx
  induction idx with
  | nil =>
    intro out hidx h e he
    unfold prAssigneesEntries at h
    injection h with h
    subst h
    simp at he
  | cons i rest ih =>
    intro out hidx h e he
    unfold prAssigneesEntries at h
    obtain ⟨ai, hai, h⟩ := exceptBind_ok h
    split at h
    · obtain ⟨aid, hid, h⟩ := exceptBind_ok h
      obtain ⟨alogin, hlogin, h⟩ := exceptBind_ok h
      obtain ⟨tail, htail, h⟩ := exceptBind_ok h
      injection h with h
      subst h
      rcases List.mem_cons.mp he with rfl | he
      · exact nameFrom_append (assignees_id_suffix_mem i (hidx i (List.mem_cons_self i rest)))
      · rcases List.mem_cons.mp he with rfl | he
        · exact nameFrom_append
            (assignees_login_suffix_mem i (hidx i (List.mem_cons_self i rest)))
        · exact ih (fun j hj => hidx j (List.mem_cons_of_mem _ hj)) htail e he
    · exact ih (fun j hj => hidx j (List.mem_cons_of_mem _ hj)) h e he

theorem prAssigneesChunk_names {pr : JsVal} {pfx : String} {out : List MultiValue}
    (h : prAssigneesChunk pr pfx = .ok out) :
    ∀ e ∈ out, nameFrom pfx ("pr_assignees_length" :: prAssigneesIdxSuffixes) e.Name := by
  unfold prAssigneesChunk at h
  obtain ⟨a, ha, h⟩ := exceptBind_ok h
  split at h
  · obtain ⟨len, hlen, h⟩ := exceptBind_ok h
    obtain ⟨entries, hent, h⟩ := exceptBind_ok h
    injection h with h
    subst h
    intro e he
    rcases List.mem_cons.mp he with rfl | he
    · exact nameFrom_append (by decide)
    · refine nameFrom_mono ?_ (prAssigneesEntries_names
        (fun i hi => lt_of_lt_of_le (List.mem_range.mp hi) (jsLoopCount_le_five len)) hent e he)
      decide
  · injection h with h
    subst h
    intro e he
    simp at he

theorem prAutoMergeChunk_names {pr : JsVal} {pfx : String} {out : List MultiValue}
    (h : prAutoMergeChunk pr pfx = .ok out) :
    ∀ e ∈ out, nameFrom pfx ["pr_auto_merge_merge_method"] e.Name := by
  unfold prAutoMergeChunk at h
  obtain ⟨am, ham, h⟩ := exceptBind_ok h
  split at h
  · obtain ⟨mm, hmm, h⟩ := exceptBind_ok h
    injection h with h
    subst h
    intro e he
    simp only [List.mem_singleton] at he
    subst he
    exact nameFrom_append (by decide)
  · injection h with h
    subst h
    intro e he
    simp at he

theorem prBaseUserChunk_names {pr : JsVal} {pfx : String} {out : List MultiValue}
    (h : prBaseUserChunk pr pfx = .ok out) :
    ∀ e ∈ out, nameFrom pfx ["pr_base_user_id", "pr_base_user_login"] e.Name := by
  unfold prBaseUserChunk at h
  obtain ⟨base, hbase, h⟩ := exceptBind_ok h
  obtain ⟨user, huser, h⟩ := exceptBind_ok h
  split at h
  · obtain ⟨uid, hid, h⟩ := exceptBind_ok h
    obtain ⟨ulogin, hlogin, h⟩ := exceptBind_ok h
    injection h with h
    subst h
    intro e he
    simp only [List.mem_cons, List.not_mem_nil, or_false] at he
    rcases he with rfl | rfl
    all_goals exact nameFrom_append (by decide)
  · injection h with h
    subst h
    intro e he
    simp at he

theorem prClosedAtChunk_names {jsDate : JsVal → Int} {now : Int} {pr : JsVal} {pfx : String}
    {out : List MultiValue} (h : prClosedAtChunk jsDate now pr pfx = .ok out) :
    ∀ e ∈ out, nameFrom pfx ["pr_closed_at"] e.Name := by
  unfold prClosedAtChunk at h
  obtain ⟨ca, hca, h⟩ := exceptBind_ok h
  split at h
  · injection h with h
    subst h
    intro e he
    simp only [List.mem_singleton] at he
    subst he
    exact nameFrom_append (by decide)
  · injection h with h
    subst h
    intro e he
    simp at he

theorem prLabelsEntries_names {labels : JsVal} {pfx : String} :
    ∀ {idx : List Nat} {out : List MultiValue},
      (∀ i ∈ idx, i < 5) →
      prLabelsEntries labels pfx idx = .ok out →
      ∀ e ∈ out, nameFrom pfx prLabelsIdxSuffixes e.Name := by
  intro idx
  induction idx with
  | nil =>
    intro out hidx h e he
    unfold prLabelsEntries at h
    injection h with h
    subst h
    simp at he
  | cons i rest ih =>
    intro out hidx h e he
    unfold prLabelsEntries at h
    obtain ⟨li, hli, h⟩ := exceptBind_ok h
    obtain ⟨nm, hnm, h⟩ := exceptBind_ok h
    obtain ⟨tail, htail, h⟩ := exceptBind_ok h
    injection h with h
    subst h
    rcases List.mem_cons.mp he with rfl | he
    · exact nameFrom_append (labels_suffix_mem i (hidx i (List.mem_cons_self i rest)))
    · exact ih (fun j hj => hidx j (List.mem_cons_of_mem _ hj)) htail e he

theorem prLabelsChunk_names {pr : JsVal} {pfx : String} {out : List MultiValue}
    (h : prLabelsChunk pr pfx = .ok out) :
    ∀ e ∈ out, nameFrom pfx prLabelsIdxSuffixes e.Name := by
  unfold prLabelsChunk at h
  obtain ⟨labels, hlab, h⟩ := exceptBind_ok h
  obtain ⟨len, hlen, h⟩ := exceptBind_ok h
  exact prLabelsEntries_names
    (fun i hi => lt_of_lt_of_le (List.mem_range.mp hi) (jsLoopCount_le_five len)) h

theorem prMergedChunk_names {pr : JsVal} {pfx : String} {out : List MultiValue}
    (h : prMergedChunk pr pfx = .ok out) :
    ∀ e ∈ out, nameFrom pfx ["pr_merged"] e.Name := by
  unfold prMergedChunk at h
  obtain ⟨mg, hmg, h⟩ := exceptBind_ok h
  split at h
  · injection h with h
    subst h
    intro e he
    simp at he
  · injection h with h
    subst h
    intro e he
    simp only [List.mem_singleton] at he
    subst he
    exact nameFrom_append (by decide)

theorem prMergedAtChunk_names {jsDate : JsVal → Int} {now : Int} {pr : JsVal} {pfx : String}
    {out : List MultiValue} (h : prMergedAtChunk jsDate now pr pfx = .ok out) :
    ∀ e ∈ out, nameFrom pfx ["pr_merged_at"] e.Name := by
  unfold prMergedAtChunk at h
  obtain ⟨ma, hma, h⟩ := exceptBind_ok h
  split at h
  · injection h with h
    subst h
    intro e he
    simp only [List.mem_singleton] at he
    subst he
    exact nameFrom_append (by decide)
  · injection h with h
    subst h
    intro e he
    simp at he

theorem prUserChunk_names {pr : JsVal} {pfx : String} {out : List MultiValue}
    (h : prUserChunk pr pfx = .ok out) :
    ∀ e ∈ out, nameFrom pfx ["pr_user_id", "pr_user_login"] e.Name := by
  unfold prUserChunk at h
  obtain ⟨user, huser, h⟩ := exceptBind_ok h
  split at h
  · obtain ⟨uid, hid, h⟩ := exceptBind_ok h
    obtain ⟨ulogin, hlogin, h⟩ := exceptBind_ok h
    injection h with h
    subst h
    intro e he
    simp only [List.mem_cons, List.not_mem_nil, or_false] at he
    rcases he with rfl | rfl
    all_goals exact nameFrom_append (by decide)
  · injection h with h
    subst h
    intro e he
    simp at he

theorem add_pr_decomp {jsDate : JsVal → Int} {now : Int} {mv : List MultiValue} {p : JsVal}
    {pfx : String} {out : List MultiValue}
    (h : add_pull_request_object_infomation jsDate now mv p pfx = .ok out) :
    ∃ pr fixed cCommits cRv cAssignee cAssignees cAutoMerge cBaseUser cClosedAt cLabels
      cMerged cMergedAt cUser,
      jsGetField p "pull_request" = .ok pr ∧
      prFixedEntries jsDate now pr pfx = .ok fixed ∧
      prCommitsChunk pr pfx = .ok cCommits ∧
      prReviewCommentsChunk pr pfx = .ok cRv ∧
      prAssigneeChunk pr pfx = .ok cAssignee ∧
      prAssigneesChunk pr pfx = .ok cAssignees ∧
      prAutoMergeChunk pr pfx = .ok cAutoMerge ∧
      prBaseUserChunk pr pfx = .ok cBaseUser ∧
      prClosedAtChunk jsDate now pr pfx = .ok cClosedAt ∧
      prLabelsChunk pr pfx = .ok cLabels ∧
      prMergedChunk pr pfx = .ok cMerged ∧
      prMergedAtChunk jsDate now pr pfx = .ok cMergedAt ∧
      prUserChunk pr pfx = .ok cUser ∧
      out = mv ++ fixed ++ cCommits ++ cRv ++ cAssignee ++ cAssignees ++ cAutoMerge ++
            cBaseUser ++ cClosedAt ++ cLabels ++ cMerged ++ cMergedAt ++ cUser := by
  unfold add_pull_request_object_infomation at h
  obtain ⟨pr, hpr, h⟩ := exceptBind_ok h
  obtain ⟨fixed, hfixed, h⟩ := exceptBind_ok h
  obtain ⟨cCommits, hcCommits, h⟩ := exceptBind_ok h
  obtain ⟨cRv, hcRv, h⟩ := exceptBind_ok h
  obtain ⟨cAssignee, hcAssignee, h⟩ := exceptBind_ok h
  obtain ⟨cAssignees, hcAssignees, h⟩ := exceptBind_ok h
  obtain ⟨cAutoMerge, hcAutoMerge, h⟩ := exceptBind_ok h
  obtain ⟨cBaseUser, hcBaseUser, h⟩ := exceptBind_ok h
  obtain ⟨cClosedAt, hcClosedAt, h⟩ := exceptBind_ok h
  obtain ⟨cLabels, hcLabels, h⟩ := exceptBind_ok h
  obtain ⟨cMerged, hcMerged, h⟩ := exceptBind_ok h
  obtain ⟨cMergedAt, hcMergedAt, h⟩ := exceptBind_ok h
  obtain ⟨cUser, hcUser, h⟩ := exceptBind_ok h
  injection h with h
  exact ⟨pr, fixed, cCommits, cRv, cAssignee, cAssignees, cAutoMerge, cBaseUser, cClosedAt,
         cLabels, cMerged, cMergedAt, cUser, hpr, hfixed, hcCommits, hcRv, hcAssignee,
         hcAssignees, hcAutoMerge, hcBaseUser, hcClosedAt, hcLabels, hcMerged, hcMergedAt,
         hcUser, h.symm⟩

theorem add_pr_names {jsDate : JsVal → Int} {now : Int} {mv : List MultiValue} {p : JsVal}
    {pfx : String} {out : List MultiValue}
    (h : add_pull_request_object_infomation jsDate now mv p pfx = .ok out) :
    ∀ e ∈ out, e ∈ mv ∨ nameFrom pfx prHelperSuffixes e.Name := by
  obtain ⟨pr, fixed, c1, c2, c3, c4, c5, c6, c7, c8, c9, c10v, c11, hpr, hf, h1, h2, h3, h4,
    h5, h6, h7, h8, h9, h10, h11, hout⟩ := add_pr_decomp h
  subst hout
  intro e he
  simp only [List.mem_append, or_assoc] at he
  rcases he with he | he | he | he | he | he | he | he | he | he | he | he | he
  · exact Or.inl he
  · exact Or.inr (nameFrom_mono (by decide) (prFixedEntries_names hf e he))
  · exact Or.inr (nameFrom_mono (by decide) (prCommitsChunk_names h1 e he))
  · exact Or.inr (nameFrom_mono (by decide) (prReviewCommentsChunk_names h2 e he))
  · exact Or.inr (nameFrom_mono (by decide) (prAssigneeChunk_names h3 e he))
  · exact Or.inr (nameFrom_mono (by decide) (prAssigneesChunk_names h4 e he))
  · exact Or.inr (nameFrom_mono (by decide) (prAutoMergeChunk_names h5 e he))
  · exact Or.inr (nameFrom_mono (by decide) (prBaseUserChunk_names h6 e he))
  · exact Or.inr (nameFrom_mono (by decide) (prClosedAtChunk_names h7 e he))
  · exact Or.inr (nameFrom_mono (by decide) (prLabelsChunk_names h8 e he))
  · exact Or.inr (nameFrom_mono (by decide) (prMergedChunk_names h9 e he))
  · exact Or.inr (nameFrom_mono (by decide) (prMergedAtChunk_names h10 e he))
  · exact Or.inr (nameFrom_mono (by decide) (prUserChunk_names h11 e he))

theorem prMergedChunk_of_false {pr : JsVal} (pfx : String)
    (h : jsGetField pr "merged" = .ok (.bool false)) :
    prMergedChunk pr pfx = .ok [⟨pfx ++ "pr_merged", "BOOLEAN", .str "false"⟩] := by
  unfold prMergedChunk
  rw [h]
  rfl

theorem prMergedChunk_of_undefOrNull {pr mg : JsVal} (pfx : String)
    (h : jsGetField pr "merged" = .ok mg) (hm : jsIsUndefOrNull mg = true) :
    prMergedChunk pr pfx = .ok [] := by
  unfold prMergedChunk
  rw [h]
  simp [Bind.bind, Except.bind, hm]

theorem add_pr_names_noMerged {jsDate : JsVal → Int} {now : Int} {mv : List MultiValue}
    {p : JsVal} {pfx : String} {out : List MultiValue} {pr mg : JsVal}
    (hpr : jsGetField p "pull_request" = .ok pr)
    (hmg : jsGetField pr "merged" = .ok mg) (hun : jsIsUndefOrNull mg = true)
    (h : add_pull_request_object_infomation jsDate now mv p pfx = .ok out) :
    ∀ e ∈ out, e ∈ mv ∨ nameFrom pfx prHelperSuffixesNoMerged e.Name := by
  obtain ⟨pr2, fixed, c1, c2, c3, c4, c5, c6, c7, c8, c9, c10v, c11, hpr2, hf, h1, h2, h3, h4,
    h5, h6, h7, h8, h9, h10, h11, hout⟩ := add_pr_decomp h
  rw [hpr] at hpr2
  injection hpr2 with hpr2
  subst hpr2
  rw [prMergedChunk_of_undefOrNull pfx hmg hun] at h9
  injection h9 with h9
  subst h9
  subst hout
  intro e he
  simp only [List.mem_append, List.not_mem_nil, or_false, or_assoc] at he
  rcases he with he | he | he | he | he | he | he | he | he | he | he | he
  · exact Or.inl he
  · exact Or.inr (nameFrom_mono (by decide) (prFixedEntries_names hf e he))
  · exact Or.inr (nameFrom_mono (by decide) (prCommitsChunk_names h1 e he))
  · exact Or.inr (nameFrom_mono (by decide) (prReviewCommentsChunk_names h2 e he))
  · exact Or.inr (nameFrom_mono (by decide) (prAssigneeChunk_names h3 e he))
  · exact Or.inr (nameFrom_mono (by decide) (prAssigneesChunk_names h4 e he))
  · exact Or.inr (nameFrom_mono (by decide) (prAutoMergeChunk_names h5 e he))
  · exact Or.inr (nameFrom_mono (by decide) (prBaseUserChunk_names h6 e he))
  · exact Or.inr (nameFrom_mono (by decide) (prClosedAtChunk_names h7 e he))
  · exact Or.inr (nameFrom_mono (by decide) (prLabelsChunk_names h8 e he))
  · exact Or.inr (nameFrom_mono (by decide) (prMergedAtChunk_names h10 e he))
  · exact Or.inr (nameFrom_mono (by decide) (prUserChunk_names h11 e he))

theorem pullRequestMeasureValues_decomp {jsDate : JsVal → Int} {now : Int} {p : JsVal}
    {out : List MultiValue} (h : pullRequestMeasureValues jsDate now p = .ok out) :
    ∃ number action,
      jsGetField p "number" = .ok number ∧ jsGetField p "action" = .ok action ∧
      add_pull_request_object_infomation jsDate now
        [⟨"pr_number", "BIGINT", .str (jsToString number)⟩,
         ⟨"pr_action", "VARCHAR", action⟩] p "pr_" = .ok out := by
  unfold pullRequestMeasureValues at h
  obtain ⟨number, hn, h⟩ := exceptBind_ok h
  obtain ⟨action, ha, h⟩ := exceptBind_ok h
  obtain ⟨assignee, hass, h⟩ := exceptBind_ok h
  simp only [] at h
  split at h
  · obtain ⟨alogin, h1, h⟩ := exceptBind_ok h
    obtain ⟨aid, h2, h⟩ := exceptBind_ok h
    obtain ⟨y, h3, h⟩ := exceptBind_ok h
    exact ⟨number, action, hn, ha, h⟩
  · obtain ⟨y, h3, h⟩ := exceptBind_ok h
    exact ⟨number, action, hn, ha, h⟩

theorem pullRequestMeasureValues_names {jsDate : JsVal → Int} {now : Int} {p : JsVal}
    {out : List MultiValue} (h : pullRequestMeasureValues jsDate now p = .ok out) :
    ∀ e ∈ out,
      e.Name = "pr_number" ∨ e.Name = "pr_action" ∨ nameFrom "pr_" prHelperSuffixes e.Name := by
  obtain ⟨number, action, hn, ha, hadd⟩ := pullRequestMeasureValues_decomp h
  intro e he
  rcases add_pr_names hadd e he with hmv | hname
  · rcases List.mem_cons.mp hmv with rfl | hmv
    · exact Or.inl rfl
    · rcases List.mem_cons.mp hmv with rfl | hmv
      · exact Or.inr (Or.inl rfl)
      · simp at hmv
  · exact Or.inr (Or.inr hname)

/-- C9: the Measure for a pull_request event never contains entries named
pr_assignee_login or pr_assignee_id: the top-level assignee branch builds them
with Array.concat and discards the result. -/
theorem no_top_level_assignee_entries :
    ∀ (jsDate : JsVal → Int) (now : Int) (p : JsVal) (m : measureType),
      getMeasure jsDate now "pull_request" p = .ok m →
      "pr_assignee_login" ∉ mvNames m ∧ "pr_assignee_id" ∉ mvNames m := by
  intro jsDate now p m h
  simp only [getMeasure, reduceIte] at h
  obtain ⟨mv, hmv, hok⟩ := exceptBind_ok h
  injection hok with hok
  subst hok
  constructor <;> intro hmem <;>
    obtain ⟨e, he, hname⟩ := List.mem_map.mp hmem <;>
    rcases pullRequestMeasureValues_names hmv e he with h1 | h1 | h1
  · exact absurd (h1.symm.trans hname) (by decide)
  · exact absurd (h1.symm.trans hname) (by decide)
  · obtain ⟨s, hs, heq⟩ := h1
    have : "pr_assignee_login" ∈ prHelperSuffixes.map (fun s => "pr_" ++ s) :=
      List.mem_map.mpr ⟨s, hs, (heq.symm.trans hname)⟩
    exact absurd this (by decide)
  · exact absurd (h1.symm.trans hname) (by decide)
  · exact absurd (h1.symm.trans hname) (by decide)
  · obtain ⟨s, hs, heq⟩ := h1
    have : "pr_assignee_id" ∈ prHelperSuffixes.map (fun s => "pr_" ++ s) :=
      List.mem_map.mpr ⟨s, hs, (heq.symm.trans hname)⟩
    exact absurd this (by decide)

/-- Witness for C9 at a payload whose top-level assignee is present. -/
theorem no_top_level_assignee_entries_witness :
    "pr_assignee_login" ∉ mvNames samplePrMeasure ∧
    "pr_assignee_id" ∉ mvNames samplePrMeasure :=
  no_top_level_assignee_entries jd0 0 samplePrPayload samplePrMeasure rfl

/-- C3 counterexample: a pull_request payload with merged equal to false whose
Measure contains no entry named pr_merged; the entry the source emits is named
pr_pr_merged, because the helper prefixes pr_merged with the caller prefix pr_. -/
theorem pr_merged_entry_double_prefixed :
    getMeasure jd0 0 "pull_request" samplePrPayload = .ok samplePrMeasure ∧
    "pr_merged" ∉ mvNames samplePrMeasure ∧
    "pr_pr_merged" ∈ mvNames samplePrMeasure :=
  ⟨rfl, by decide, by decide⟩

/-- C3 amended: for a pull_request event, merged equal to false yields an entry
named pr_pr_merged with value false, while an undefined or null merged field
yields no pr_pr_merged entry at all. -/
theorem pr_merged_emitted_iff_defined :
    ∀ (jsDate : JsVal → Int) (now : Int) (p pr mg : JsVal) (m : measureType),
      getMeasure jsDate now "pull_request" p = .ok m →
      jsGetField p "pull_request" = .ok pr →
      jsGetField pr "merged" = .ok mg →
      ((mg = .bool false → measureHasEntry m ⟨"pr_pr_merged", "BOOLEAN", .str "false"⟩) ∧
       (jsIsUndefOrNull mg = true → "pr_pr_merged" ∉ mvNames m)) := by
  intro jsDate now p pr mg m h hpr hmg
  simp only [getMeasure, reduceIte] at h
  obtain ⟨mv, hmv, hok⟩ := exceptBind_ok h
  injection hok with hok
  subst hok
  obtain ⟨number, action, hn, ha, hadd⟩ := pullRequestMeasureValues_decomp hmv
  constructor
  · intro hfalse
    subst hfalse
    obtain ⟨pr2, fixed, c1, c2, c3, c4, c5, c6, c7, c8, c9, c10v, c11, hpr2, hf, h1, h2, h3,
      h4, h5, h6, h7, h8, h9, h10, h11, hout⟩ := add_pr_decomp hadd
    rw [hpr] at hpr2
    injection hpr2 with hpr2
    subst hpr2
    rw [prMergedChunk_of_false "pr_" hmg] at h9
    injection h9 with h9
    subst h9
    subst hout
    show (⟨"pr_pr_merged", "BOOLEAN", .str "false"⟩ : MultiValue) ∈ _
    exact List.mem_append_left _ (List.mem_append_left _
      (List.mem_append_right _ (List.mem_singleton_self _)))
  · intro hun hmem
    obtain ⟨e, he, hname⟩ := List.mem_map.mp hmem
    rcases add_pr_names_noMerged hpr hmg hun hadd e he with hmv2 | hname2
    · rcases List.mem_cons.mp hmv2 with rfl | hmv2
      · exact absurd (show ("pr_number" : String) = "pr_pr_merged" from hname) (by decide)
      · rcases List.mem_cons.mp hmv2 with rfl | hmv2
        · exact absurd (show ("pr_action" : String) = "pr_pr_merged" from hname) (by decide)
        · simp at hmv2
    · obtain ⟨s, hs, heq⟩ := hname2
      have : "pr_pr_merged" ∈ prHelperSuffixesNoMerged.map (fun s => "pr_" ++ s) :=
        List.mem_map.mpr ⟨s, hs, (heq.symm.trans hname)⟩
      exact absurd this (by decide)

/-- Witness for C3: the merged-false payload exhibits the pr_pr_merged entry;
the merged-absent payload exhibits its absence. -/
theorem pr_merged_emitted_iff_defined_witness :
    measureHasEntry samplePrMeasure ⟨"pr_pr_merged", "BOOLEAN", .str "false"⟩ ∧
    "pr_pr_merged" ∉ mvNames samplePrMeasureNoMerged :=
  ⟨(pr_merged_emitted_iff_defined jd0 0 samplePrPayload
      (samplePrObject (.arr []) [("merged", .bool false)]) (.bool false) samplePrMeasure
      rfl rfl rfl).1 rfl,
   (pr_merged_emitted_iff_defined jd0 0 samplePrPayloadNoMerged
      (samplePrObject (.arr []) []) .undefined samplePrMeasureNoMerged
      rfl rfl rfl).2 rfl⟩

/-- C2 (divergence exhibit): a pull_request payload with one label produces the
indexed entry pr_pr_labels_0_name but no length entry for the labels array,
although every other flattened array gets one. -/
theorem pr_labels_flatten_no_length_entry :
    getMeasure jd0 0 "pull_request" samplePrLabelsPayload = .ok samplePrLabelsMeasure ∧
    "pr_pr_labels_0_name" ∈ mvNames samplePrLabelsMeasure ∧
    "pr_pr_labels_length" ∉ mvNames samplePrLabelsMeasure ∧
    "pr_labels_length" ∉ mvNames samplePrLabelsMeasure :=
  ⟨rfl, by decide, by decide, by decide⟩

/-- C7: with the source-IP gate passed, a nonempty body and a working secret
store, a valid signature followed by an unparseable JSON body yields the 400
invalid-JSON response carrying the parse error (not 401 and not 500), and an
invalid signature yields 401 before the body is ever parsed. -/
theorem invalid_json_after_valid_signature_400 :
    ∀ (deps : HandlerDeps) (event : LambdaEvent) (bodyStr e : String),
      ipPass deps event →
      effectiveBody deps event = some bodyStr →
      bodyStr ≠ "" →
      deps.secretOk = true →
      ((deps.verify bodyStr
          (headerLookup event.headers "X-Hub-Signature-256" "x-hub-signature-256") = true →
        deps.parseJson bodyStr = .error e →
        handler deps event = ⟨400, .invalidJson e⟩) ∧
       (deps.verify bodyStr
          (headerLookup event.headers "X-Hub-Signature-256" "x-hub-signature-256") = false →
        handler deps event = ⟨401, .invalidSignature⟩)) := by
  intro deps event bodyStr e hip hbody hne hsecret
  have hbase : handler deps event = handlerAfterIp deps event := by
    unfold handler
    unfold ipPass at hip
    cases hsi : event.sourceIp with
    | none => simp
    | some ip =>
      rw [hsi] at hip
      simp [hip]
  constructor
  · intro hv hp
    rw [hbase]
    unfold handlerAfterIp
    rw [hbody]
    simp [hne, hsecret, hv, hp]
  · intro hv
    rw [hbase]
    unfold handlerAfterIp
    rw [hbody]
    simp [hne, hsecret, hv]

/-- Witness for C7 at a concrete GitHub-IP request whose body fails to parse. -/
theorem invalid_json_after_valid_signature_400_witness :
    handler sampleDeps sampleEvent = ⟨400, .invalidJson "Unexpected token"⟩ :=
  (invalid_json_after_valid_signature_400 sampleDeps sampleEvent "not json" "Unexpected token"
    rfl rfl (by decide) rfl).1 rfl rfl
